import Mathlib

/-!
Verification of the floor-plan editor and constraint rule engine
(`src/static/blueprinting/js/constraints.js`) against its specification.

The engine and canvas are shallowly embedded: JS numbers become `ℚ`
(the engine does exact comparisons on setback, area and span values and
the zoom-anchor property is stated in exact arithmetic), the reference
tables of `jurisdictions.js` become keyed `Option`-returning lookups, and
the `this.results.push` accumulator of `ConstraintEngine` becomes explicit
list concatenation in the order the source pushes.

Freeform prose fields of a result record (`message`, `resolution`, and the
interpolated `witness` strings) are not modeled: no checked property reads
them.  The one structured witness — the list of violated setback edges that
`checkL7_SurveySetback` joins into its fail record — is kept as a list of
`Edge` tags in the order the source tests the edges (left, right, front,
rear).
-/

/-- Result status: `"pass" | "warn" | "fail"` (constraints.js header). -/
inductive Status where
  | pass
  | warn
  | fail
deriving DecidableEq, Repr

/-- A violated setback edge, abstracting the four violation strings built in
`checkL7_SurveySetback` (constraints.js lines 532-543). -/
inductive Edge where
  | left
  | right
  | front
  | rear
deriving DecidableEq, Repr

/-- One constraint result record (prose fields omitted, see module comment). -/
structure ConstraintResult where
  id : String
  name : String
  layer : Nat
  status : Status
  witnessEdges : List Edge := []
deriving DecidableEq, Repr

/-- A room of the project model (constraints.js `onMouseUp` builds these). -/
structure Room where
  id : String
  type : String
  label : String
  x : ℚ
  y : ℚ
  width : ℚ
  height : ℚ
  hasEgressWindow : Bool
  windowArea : ℚ
deriving DecidableEq, Repr

/-- The project data model fields the engine reads. -/
structure Project where
  jurisdiction : String
  buildingType : String
  stories : Nat
  lotWidth : ℚ
  lotDepth : ℚ
  surveyUploaded : Bool
  rooms : List Room
deriving DecidableEq, Repr

/-- Setback distances of a jurisdiction (jurisdictions.js). -/
structure Setbacks where
  front : ℚ
  rear : ℚ
  sideInterior : ℚ
  sideCorner : ℚ
deriving DecidableEq, Repr

/-- The jurisdiction fields the constraint engine reads.  Prose fields
(`adoptedCode`, `energyCode`, `foundationNotes`, `floodRequirements`,
`permitRequirements`, `population`, `selfCertification`) feed only omitted
message strings.  JS `null` becomes `Option.none`. -/
structure Jurisdiction where
  name : String
  requiresPESealedFoundation : Bool
  requiresSurvey : Bool
  minLotSize : Option ℚ
  setbacks : Setbacks
  maxLotCoverage : ℚ
  maxHeight : Option ℚ
  localAmendments : List String
  floodZone : Bool
deriving DecidableEq, Repr

/-- Building-type fields the engine reads (`maxUnits`, `label`). -/
structure BuildingType where
  label : String
  maxUnits : Nat
deriving DecidableEq, Repr

/-- Room-type fields the engine reads.  `exterior` is absent (falsy) for all
types except `porch` in jurisdictions.js. -/
structure RoomType where
  label : String
  minArea : ℚ
  minDimension : ℚ
  requiresEgress : Bool
  exterior : Bool := false
deriving DecidableEq, Repr

/-- `JURISDICTIONS.houston` (jurisdictions.js lines 8-40). -/
def houston : Jurisdiction where
  name := "Houston"
  requiresPESealedFoundation := true
  requiresSurvey := true
  minLotSize := some 3000
  setbacks := { front := 25, rear := 5, sideInterior := 5, sideCorner := 10 }
  maxLotCoverage := 80/100
  maxHeight := some 35
  localAmendments :=
    [ "No minimum parking requirements for residential (2024 amendment)",
      "ADU permitted on all single-family lots",
      "Rain sensor required on all irrigation systems" ]
  floodZone := true

/-- `JURISDICTIONS.austin` (jurisdictions.js lines 42-76). -/
def austin : Jurisdiction where
  name := "Austin"
  requiresPESealedFoundation := true
  requiresSurvey := true
  minLotSize := some 3000
  setbacks := { front := 25, rear := 10, sideInterior := 5, sideCorner := 15 }
  maxLotCoverage := 45/100
  maxHeight := some 35
  localAmendments :=
    [ "Impervious cover limits apply (varies by zoning)",
      "Heritage tree ordinance — survey required",
      "Rainwater harvesting incentives available",
      "HOME Phase 2 zoning reform — up to 3 units on single-family lots" ]
  floodZone := true

/-- `JURISDICTIONS.dallas` (jurisdictions.js lines 78-109). -/
def dallas : Jurisdiction where
  name := "Dallas"
  requiresPESealedFoundation := true
  requiresSurvey := true
  minLotSize := some 3000
  setbacks := { front := 25, rear := 5, sideInterior := 5, sideCorner := 15 }
  maxLotCoverage := 60/100
  maxHeight := some 36
  localAmendments :=
    [ "Accessory dwelling units permitted in single-family zones",
      "Residential proximity slope requirements near highways" ]
  floodZone := true

/-- `JURISDICTIONS.san_antonio` (jurisdictions.js lines 111-143). -/
def san_antonio : Jurisdiction where
  name := "San Antonio"
  requiresPESealedFoundation := true
  requiresSurvey := true
  minLotSize := some 3000
  setbacks := { front := 25, rear := 5, sideInterior := 5, sideCorner := 10 }
  maxLotCoverage := 65/100
  maxHeight := some 35
  localAmendments :=
    [ "Edwards Aquifer protection zone impervious cover limits",
      "Historic district review for designated areas",
      "Water conservation fixtures required (SAWS)" ]
  floodZone := true

/-- `JURISDICTIONS.fort_worth` (jurisdictions.js lines 145-174). -/
def fort_worth : Jurisdiction where
  name := "Fort Worth"
  requiresPESealedFoundation := true
  requiresSurvey := true
  minLotSize := some 3000
  setbacks := { front := 25, rear := 5, sideInterior := 5, sideCorner := 15 }
  maxLotCoverage := 55/100
  maxHeight := some 35
  localAmendments :=
    [ "Neighborhood conservation overlay districts may impose additional restrictions" ]
  floodZone := true

/-- `JURISDICTIONS.unincorporated` (jurisdictions.js lines 176-204). -/
def unincorporated : Jurisdiction where
  name := "Unincorporated Area (County)"
  requiresPESealedFoundation := false
  requiresSurvey := false
  minLotSize := none
  setbacks := { front := 0, rear := 0, sideInterior := 0, sideCorner := 0 }
  maxLotCoverage := 1
  maxHeight := none
  localAmendments :=
    [ "No building permit required in most unincorporated areas",
      "County may enforce floodplain and OSSF regulations only" ]
  floodZone := false

/-- The `JURISDICTIONS` table as a keyed lookup. -/
def JURISDICTIONS : String → Option Jurisdiction
  | "houston" => some houston
  | "austin" => some austin
  | "dallas" => some dallas
  | "san_antonio" => some san_antonio
  | "fort_worth" => some fort_worth
  | "unincorporated" => some unincorporated
  | _ => none

/-- `BUILDING_TYPES["single-family"]` (jurisdictions.js lines 209-215). -/
def singleFamilyType : BuildingType where
  label := "Single-Family Residence"
  maxUnits := 1

/-- The `BUILDING_TYPES` table as a keyed lookup (jurisdictions.js 208-258). -/
def BUILDING_TYPES : String → Option BuildingType
  | "single-family" => some singleFamilyType
  | "duplex" => some { label := "Duplex", maxUnits := 2 }
  | "triplex" => some { label := "Triplex", maxUnits := 3 }
  | "fourplex" => some { label := "Fourplex", maxUnits := 4 }
  | "adu" => some { label := "Accessory Dwelling Unit", maxUnits := 1 }
  | "garage" => some { label := "Detached Garage / Storage", maxUnits := 0 }
  | "townhome" => some { label := "Townhome", maxUnits := 1 }
  | _ => none

/-- The `ROOM_TYPES` table as a keyed lookup (jurisdictions.js 261-356). -/
def ROOM_TYPES : String → Option RoomType
  | "living" => some { label := "Living Room", minArea := 120, minDimension := 10, requiresEgress := false }
  | "bedroom" => some { label := "Bedroom", minArea := 70, minDimension := 7, requiresEgress := true }
  | "kitchen" => some { label := "Kitchen", minArea := 50, minDimension := 5, requiresEgress := false }
  | "bathroom" => some { label := "Bathroom", minArea := 35, minDimension := 5, requiresEgress := false }
  | "dining" => some { label := "Dining Room", minArea := 80, minDimension := 8, requiresEgress := false }
  | "garage_room" => some { label := "Garage", minArea := 200, minDimension := 10, requiresEgress := false }
  | "laundry" => some { label := "Laundry", minArea := 20, minDimension := 4, requiresEgress := false }
  | "closet" => some { label := "Closet", minArea := 6, minDimension := 2, requiresEgress := false }
  | "hallway" => some { label := "Hallway", minArea := 0, minDimension := 3, requiresEgress := false }
  | "utility" => some { label := "Utility / Mechanical", minArea := 12, minDimension := 3, requiresEgress := false }
  | "porch" => some { label := "Porch / Patio", minArea := 0, minDimension := 4, requiresEgress := false, exterior := true }
  | _ => none

/-- The `TX_STATE` constants the engine reads (jurisdictions.js 359-377). -/
structure StateConstants where
  architectExemptionMaxUnits : Nat
  architectExemptionMaxStories_withCode : Nat
  architectExemptionMaxStories_2unit : Nat
  engineerExemptionMaxUnits : Nat
  engineerExemptionMaxStories : Nat
  peClearSpanThreshold : ℚ
  peSingleStoryAreaThreshold : ℚ
  minHallwayWidth : ℚ

/-- The values of `TX_STATE`. -/
def TX_STATE : StateConstants where
  architectExemptionMaxUnits := 4
  architectExemptionMaxStories_withCode := 2
  architectExemptionMaxStories_2unit := 3
  engineerExemptionMaxUnits := 4
  engineerExemptionMaxStories := 2
  peClearSpanThreshold := 24
  peSingleStoryAreaThreshold := 5000
  minHallwayWidth := 3

/-- `stories = project.stories || 1` (constraints.js lines 43, 115): a falsy
(zero) story count defaults to 1. -/
def effStories (p : Project) : Nat :=
  if p.stories = 0 then 1 else p.stories

/-- `project.lotWidth || 50` (constraints.js lines 405, 510). -/
def effLotWidth (p : Project) : ℚ :=
  if p.lotWidth = 0 then 50 else p.lotWidth

/-- `project.lotDepth || 100` (constraints.js lines 405, 511). -/
def effLotDepth (p : Project) : ℚ :=
  if p.lotDepth = 0 then 100 else p.lotDepth

/-- `ROOM_TYPES[r.type]?.exterior` truthiness: an unknown room type counts as
non-exterior (constraints.js lines 517, 574, 580, 596). -/
def isExteriorRoom (r : Room) : Bool :=
  match ROOM_TYPES r.type with
  | some rt => rt.exterior
  | none => false

/-- `calcTotalArea` (constraints.js lines 572-576). -/
def calcTotalArea (p : Project) : ℚ :=
  (p.rooms.filter (fun r => !(isExteriorRoom r))).foldl
    (fun sum r => sum + r.width * r.height) 0

/-- `calcMaxSpan` (constraints.js lines 578-582). -/
def calcMaxSpan (p : Project) : ℚ :=
  (p.rooms.filter (fun r => !(isExteriorRoom r))).foldl
    (fun m r => max m (min r.width r.height)) 0

/-- `calcWindowArea` (constraints.js lines 584-587). -/
def calcWindowArea (p : Project) : ℚ :=
  p.rooms.foldl (fun sum r => sum + r.windowArea) 0

/-- The bounding box of the non-exterior rooms. -/
structure BBox where
  minX : ℚ
  maxX : ℚ
  minY : ℚ
  maxY : ℚ
deriving DecidableEq, Repr

/-- The `minX/maxX/minY/maxY` fold of constraints.js lines 513-522 (and
593-601): the source starts from `±Infinity` sentinels and skips exterior
rooms; over the non-exterior rooms, when any exist, that equals folding
min/max from the first such room's box, and the `minX !== Infinity` test
equals this returning `some`. -/
def bboxOf (rooms : List Room) : Option BBox :=
  match rooms.filter (fun r => !(isExteriorRoom r)) with
  | [] => none
  | r :: rs =>
    some (rs.foldl
      (fun b q =>
        { minX := min b.minX q.x, maxX := max b.maxX (q.x + q.width),
          minY := min b.minY q.y, maxY := max b.maxY (q.y + q.height) })
      { minX := r.x, maxX := r.x + r.width, minY := r.y, maxY := r.y + r.height })

/-- `calcExteriorWallArea` (constraints.js lines 589-605): bounding-box
perimeter of the non-exterior rooms times an assumed 9 ft ceiling. -/
def calcExteriorWallArea (p : Project) : ℚ :=
  match bboxOf p.rooms with
  | none => 0
  | some b => 2 * ((b.maxX - b.minX) + (b.maxY - b.minY)) * 9

/-- `checkL1_ArchitectExemption` (constraints.js lines 41-109): each guarded
push-and-return becomes one if-branch, so exactly one record results. -/
def checkL1 (p : Project) (j : Jurisdiction) (bt : BuildingType) :
    List ConstraintResult :=
  let units := bt.maxUnits
  let stories := effStories p
  if units > TX_STATE.architectExemptionMaxUnits then
    [{ id := "L1-units", name := "Architect Exemption", layer := 1, status := .fail }]
  else if units ≤ 2 ∧ stories > TX_STATE.architectExemptionMaxStories_2unit then
    [{ id := "L1-stories", name := "Architect Exemption", layer := 1, status := .fail }]
  else if units > 2 ∧ stories > TX_STATE.architectExemptionMaxStories_withCode then
    [{ id := "L1-stories-multi", name := "Architect Exemption", layer := 1, status := .fail }]
  else if units > 2 ∧ j.name = "Unincorporated Area (County)" then
    [{ id := "L1-municipality", name := "Architect Exemption", layer := 1, status := .warn }]
  else
    [{ id := "L1", name := "Architect Exemption", layer := 1, status := .pass }]

/-- `checkL2_PERequirement` (constraints.js lines 114-200): the four checks
append independently; with no failure, a near-threshold span (over 85% of
`peClearSpanThreshold`) warns, otherwise one pass record results. -/
def checkL2 (p : Project) (_j : Jurisdiction) (bt : BuildingType) :
    List ConstraintResult :=
  let stories := effStories p
  let units := bt.maxUnits
  let totalArea := calcTotalArea p
  let maxSpan := calcMaxSpan p
  let issues : List ConstraintResult :=
    (if stories > TX_STATE.engineerExemptionMaxStories then
      [{ id := "L2-stories", name := "PE Requirement — Stories", layer := 2,
         status := Status.fail }] else [])
    ++ (if maxSpan > TX_STATE.peClearSpanThreshold then
      [{ id := "L2-span", name := "PE Requirement — Span", layer := 2,
         status := Status.fail }] else [])
    ++ (if stories = 1 ∧ totalArea > TX_STATE.peSingleStoryAreaThreshold then
      [{ id := "L2-area", name := "PE Requirement — Area", layer := 2,
         status := Status.fail }] else [])
    ++ (if units > TX_STATE.engineerExemptionMaxUnits then
      [{ id := "L2-units", name := "PE Requirement — Units", layer := 2,
         status := Status.fail }] else [])
  if issues.length > 0 then issues
  else if maxSpan > TX_STATE.peClearSpanThreshold * (85/100) then
    [{ id := "L2-span-warn", name := "PE Requirement — Span", layer := 2,
       status := .warn }]
  else
    [{ id := "L2", name := "PE Requirement", layer := 2, status := .pass }]

/-- `checkL3_FoundationEngineering` (constraints.js lines 205-227). -/
def checkL3 (_p : Project) (j : Jurisdiction) : List ConstraintResult :=
  if j.requiresPESealedFoundation then
    [{ id := "L3", name := "Foundation Engineering", layer := 3, status := .warn }]
  else
    [{ id := "L3", name := "Foundation Engineering", layer := 3, status := .pass }]

/-- The room-area fail record `checkL4_IRCCompliance` pushes (constraints.js
lines 245-253): its id references the room's id. -/
def l4AreaFailRec (roomId : String) : ConstraintResult :=
  { id := "L4-area-" ++ roomId, name := "IRC — Room Area", layer := 4,
    status := .fail }

/-- The room-dimension fail record (constraints.js lines 258-266): its id
references the room's id. -/
def l4DimFailRec (roomId : String) : ConstraintResult :=
  { id := "L4-dim-" ++ roomId, name := "IRC — Room Dimension", layer := 4,
    status := .fail }

/-- The per-room body of `checkL4_IRCCompliance`'s loop (constraints.js lines
236-283): an unknown room type is skipped (`continue`); otherwise the area
check, the narrow-dimension check and the bedroom-egress check each push. -/
def l4RoomIssues (r : Room) : List ConstraintResult :=
  match ROOM_TYPES r.type with
  | none => []
  | some rt =>
    (if rt.minArea > 0 ∧ r.width * r.height < rt.minArea then
      [l4AreaFailRec r.id] else [])
    ++ (if rt.minDimension > 0 ∧ min r.width r.height < rt.minDimension then
      [l4DimFailRec r.id] else [])
    ++ (if rt.requiresEgress ∧ r.type = "bedroom" ∧ ¬ r.hasEgressWindow then
      [{ id := "L4-egress-" ++ r.id, name := "IRC — Egress Window", layer := 4,
         status := Status.warn }] else [])

/-- The `issues` array `checkL4_IRCCompliance` accumulates (constraints.js
lines 234-328): per-room issues in room order, then the no-bedroom and
no-bathroom dataset checks, then the hallway-width loop. -/
def l4Issues (p : Project) : List ConstraintResult :=
  p.rooms.flatMap l4RoomIssues
  ++ (if p.rooms.length > 0
        ∧ (p.rooms.filter (fun r => r.type == "bedroom")).length = 0
        ∧ p.buildingType ≠ "garage" then
    [{ id := "L4-no-bedroom", name := "IRC — Habitable Space", layer := 4,
       status := Status.warn }] else [])
  ++ (if p.rooms.length > 0
        ∧ (p.rooms.filter (fun r => r.type == "bathroom")).length = 0
        ∧ p.buildingType ≠ "garage" then
    [{ id := "L4-no-bathroom", name := "IRC — Sanitary Facilities", layer := 4,
       status := Status.warn }] else [])
  ++ (p.rooms.filter (fun r => r.type == "hallway")).flatMap (fun hall =>
    if min hall.width hall.height < TX_STATE.minHallwayWidth then
      [{ id := "L4-hall-" ++ hall.id, name := "IRC — Hallway Width", layer := 4,
         status := Status.fail }] else [])

/-- `checkL4_IRCCompliance` (constraints.js lines 232-353): if any issue
exists all are pushed, else one pass when rooms exist, else one warn
prompting the user to add rooms. -/
def checkL4 (p : Project) (_j : Jurisdiction) : List ConstraintResult :=
  if (l4Issues p).length > 0 then l4Issues p
  else if p.rooms.length > 0 then
    [{ id := "L4", name := "IRC Compliance", layer := 4, status := .pass }]
  else
    [{ id := "L4", name := "IRC Compliance", layer := 4, status := .warn }]

/-- `checkL5_EnergyCode` (constraints.js lines 358-398): with positive wall
and window areas, a window-to-wall ratio over 0.30 warns, else passes; with
no glazing data one informational pass results. -/
def checkL5 (p : Project) (_j : Jurisdiction) : List ConstraintResult :=
  let windowArea := calcWindowArea p
  let wallArea := calcExteriorWallArea p
  if wallArea > 0 ∧ windowArea > 0 then
    if windowArea / wallArea > 30/100 then
      [{ id := "L5-wwr", name := "Energy Code — Window Ratio", layer := 5,
         status := .warn }]
    else
      [{ id := "L5", name := "Energy Code", layer := 5, status := .pass }]
  else
    [{ id := "L5", name := "Energy Code", layer := 5, status := .pass }]

/-- `checkL6_LocalAmendments` (constraints.js lines 403-487): each applicable
check appends independently; JS truthiness of `maxLotCoverage`, `maxHeight`
and `minLotSize` becomes a zero test and `Option` matches. -/
def checkL6 (p : Project) (j : Jurisdiction) : List ConstraintResult :=
  let totalArea := calcTotalArea p
  let lotArea := effLotWidth p * effLotDepth p
  (if j.maxLotCoverage ≠ 0 ∧ j.maxLotCoverage < 1 then
    (if totalArea / lotArea > j.maxLotCoverage then
      [{ id := "L6-coverage", name := "Local — Lot Coverage", layer := 6,
         status := Status.fail }]
    else
      [{ id := "L6-coverage", name := "Local — Lot Coverage", layer := 6,
         status := Status.pass }])
  else [])
  ++ (match j.maxHeight with
    | some mh =>
      if ((effStories p : ℚ) * 10 + 3) > mh then
        [{ id := "L6-height", name := "Local — Height", layer := 6,
           status := Status.fail }]
      else []
    | none => [])
  ++ (match j.minLotSize with
    | some m =>
      if lotArea < m then
        [{ id := "L6-lotsize", name := "Local — Lot Size", layer := 6,
           status := Status.fail }]
      else []
    | none => [])
  ++ (if j.floodZone then
    [{ id := "L6-flood", name := "Local — Flood Zone", layer := 6,
       status := Status.warn }] else [])
  ++ (if j.localAmendments.length > 0 then
    [{ id := "L6-info", name := "Local Amendments", layer := 6,
       status := Status.pass }] else [])

/-- The violated setback edges, in the order constraints.js lines 530-543
tests them. -/
def l7Violations (b : BBox) (sb : Setbacks) (lotW lotD : ℚ) : List Edge :=
  (if b.minX < sb.sideInterior then [Edge.left] else [])
  ++ (if b.maxX > lotW - sb.sideInterior then [Edge.right] else [])
  ++ (if b.minY < sb.front then [Edge.front] else [])
  ++ (if b.maxY > lotD - sb.rear then [Edge.rear] else [])

/-- The single combined setback record (constraints.js lines 545-565): one
fail listing every violated edge, or one pass. -/
def l7SetbackRecord (b : BBox) (j : Jurisdiction) (lotW lotD : ℚ) :
    ConstraintResult :=
  let violations := l7Violations b j.setbacks lotW lotD
  if violations.length > 0 then
    { id := "L7-setback", name := "Setback Violation", layer := 7,
      status := .fail, witnessEdges := violations }
  else
    { id := "L7-setback", name := "Setbacks", layer := 7, status := .pass }

/-- `checkL7_SurveySetback` (constraints.js lines 492-568): a survey warn
when required and missing, then — only when rooms exist and some are
non-exterior — the combined setback record. -/
def checkL7 (p : Project) (j : Jurisdiction) : List ConstraintResult :=
  (if j.requiresSurvey ∧ ¬ p.surveyUploaded then
    [{ id := "L7-survey", name := "Survey Required", layer := 7,
       status := Status.warn }] else [])
  ++ (if p.rooms.length > 0 then
    match bboxOf p.rooms with
    | none => []
    | some b => [l7SetbackRecord b j (effLotWidth p) (effLotDepth p)]
  else [])

/-- `ConstraintEngine.worstStatus` (constraints.js lines 615-619). -/
def worstStatus (results : List ConstraintResult) : Status :=
  if results.any (fun r => r.status == Status.fail) then .fail
  else if results.any (fun r => r.status == Status.warn) then .warn
  else .pass

/-- The jurisdiction lookup with fallback of `ConstraintEngine.check`
(constraints.js line 24). -/
def resolveJurisdiction (k : String) : Jurisdiction :=
  (JURISDICTIONS k).getD unincorporated

/-- The building-type lookup with fallback of `ConstraintEngine.check`
(constraints.js line 25): the fallback is the single-family entry. -/
def resolveBuildingType (k : String) : BuildingType :=
  (BUILDING_TYPES k).getD singleFamilyType

/-- The seven layer calls of `ConstraintEngine.check` in order
(constraints.js lines 27-33), each appending to the shared accumulator. -/
def engineLayers (p : Project) : List ConstraintResult :=
  let j := resolveJurisdiction p.jurisdiction
  let bt := resolveBuildingType p.buildingType
  checkL1 p j bt ++ checkL2 p j bt ++ checkL3 p j ++ checkL4 p j
    ++ checkL5 p j ++ checkL6 p j ++ checkL7 p j

/-- `ConstraintEngine.check` with the engine's `this.results` field made an
explicit state: line 23 resets the accumulator to `[]` before the layers
run, so the carried-in state is discarded; the returned array is also the
engine state left behind. -/
def engineCheck (_priorResults : List ConstraintResult) (p : Project) :
    List ConstraintResult × List ConstraintResult :=
  let results : List ConstraintResult := []
  let results := results ++ engineLayers p
  (results, results)

/-- The view state of `FloorPlanCanvas`: zoom scale (pixels per foot) and
pan offset (constraints.js lines 636-638). -/
structure ViewState where
  scale : ℚ
  offsetX : ℚ
  offsetY : ℚ
deriving DecidableEq, Repr

/-- The constructor's initial view: `scale = 6`, `offsetX = offsetY = 60`
(constraints.js lines 636-638). -/
def initialView : ViewState :=
  { scale := 6, offsetX := 60, offsetY := 60 }

/-- `worldToScreen` (constraints.js lines 676-681). -/
def worldToScreen (v : ViewState) (wx wy : ℚ) : ℚ × ℚ :=
  (wx * v.scale + v.offsetX, wy * v.scale + v.offsetY)

/-- `screenToWorld` (constraints.js lines 683-688). -/
def screenToWorld (v : ViewState) (sx sy : ℚ) : ℚ × ℚ :=
  ((sx - v.offsetX) / v.scale, (sy - v.offsetY) / v.scale)

/-- `snapToGrid` with `gridSize = 1` (constraints.js lines 639, 690-692).
Mathlib's `round` (half up) matches JS `Math.round`. -/
def snapToGrid (val : ℚ) : ℚ :=
  ((round (val / 1) : ℤ) : ℚ) * 1

/-- `onWheel` (constraints.js lines 861-874): the world point under the
pointer is read, the scale is multiplied by 1.1 (scroll up) or 0.9 and
clamped into [1, 40], the world point under the pointer is re-read at the
new scale with the old offset, and the offset absorbs the difference. -/
def onWheel (v : ViewState) (px py deltaY : ℚ) : ViewState :=
  let worldBefore := screenToWorld v px py
  let zoomFactor : ℚ := if deltaY < 0 then 11/10 else 9/10
  let scale2 := max 1 (min 40 (v.scale * zoomFactor))
  let worldAfter := screenToWorld { v with scale := scale2 } px py
  { scale := scale2,
    offsetX := v.offsetX + (worldAfter.1 - worldBefore.1) * scale2,
    offsetY := v.offsetY + (worldAfter.2 - worldBefore.2) * scale2 }

/-- The eight resize handles (constraints.js lines 909-918). -/
inductive Handle where
  | nw
  | ne
  | sw
  | se
  | n
  | s
  | e
  | w
deriving DecidableEq, Repr

/-- `applyResize` (constraints.js lines 928-966) as a pure update of the
mutated room; `minSize = 2`.  Dimensions grown from the fixed corner are
clamped with `Math.max(minSize, ·)`; moves of the min edge are applied only
when the resulting dimension stays at least `minSize`. -/
def applyResize (room : Room) (handle : Handle) (snapped : ℚ × ℚ) : Room :=
  match handle with
  | .se =>
    { room with width := max 2 (snapped.1 - room.x),
                height := max 2 (snapped.2 - room.y) }
  | .nw =>
    let newW := room.x + room.width - snapped.1
    let newH := room.y + room.height - snapped.2
    let room1 := if newW ≥ 2 then { room with x := snapped.1, width := newW } else room
    if newH ≥ 2 then { room1 with y := snapped.2, height := newH } else room1
  | .ne =>
    let room1 := { room with width := max 2 (snapped.1 - room.x) }
    let newH := room.y + room.height - snapped.2
    if newH ≥ 2 then { room1 with y := snapped.2, height := newH } else room1
  | .sw =>
    let newW := room.x + room.width - snapped.1
    let room1 := if newW ≥ 2 then { room with x := snapped.1, width := newW } else room
    { room1 with height := max 2 (snapped.2 - room.y) }
  | .n =>
    let newH := room.y + room.height - snapped.2
    if newH ≥ 2 then { room with y := snapped.2, height := newH } else room
  | .s =>
    { room with height := max 2 (snapped.2 - room.y) }
  | .e =>
    { room with width := max 2 (snapped.1 - room.x) }
  | .w =>
    let newW := room.x + room.width - snapped.1
    if newW ≥ 2 then { room with x := snapped.1, width := newW } else room

/-- The draw-commit branch of `onMouseUp` (constraints.js lines 828-848):
the dragged rectangle is normalized (top-left corner, absolute extents) and
a room is appended only when both extents are at least 2 ft.  The fresh id
(`"r" + Date.now()` in the source) is a parameter. -/
def commitDraw (newId drawRoomType : String) (start stop : ℚ × ℚ)
    (rooms : List Room) : List Room :=
  let x := min start.1 stop.1
  let y := min start.2 stop.2
  let w := |stop.1 - start.1|
  let h := |stop.2 - start.2|
  if w ≥ 2 ∧ h ≥ 2 then
    rooms ++ [{ id := newId, type := drawRoomType, label := "",
                x := x, y := y, width := w, height := h,
                hasEgressWindow := false, windowArea := 0 }]
  else rooms

/-- A porch is the one exterior room type: a project holding only a porch
has a non-empty rooms list but no non-exterior room. -/
def porchRoom : Room :=
  { id := "p1", type := "porch", label := "", x := 10, y := 30,
    width := 10, height := 10, hasEgressWindow := false, windowArea := 0 }

/-- A project whose only room is the porch. -/
def porchProject : Project :=
  { jurisdiction := "houston", buildingType := "single-family", stories := 1,
    lotWidth := 50, lotDepth := 100, surveyUploaded := true,
    rooms := [porchRoom] }

/-- The spec's L7 example room: bounding box spanning x ∈ [0, 10], placed
between the front (25 ft) and rear (5 ft) setback lines of a 100 ft lot. -/
def exampleRoom : Room :=
  { id := "r1", type := "living", label := "", x := 0, y := 30,
    width := 10, height := 40, hasEgressWindow := false, windowArea := 0 }

/-- The spec's L7 example project: 50×100 lot in a jurisdiction with
setbacks {front 25, rear 5, side 5} (Houston). -/
def setbackProject : Project :=
  { jurisdiction := "houston", buildingType := "single-family", stories := 1,
    lotWidth := 50, lotDepth := 100, surveyUploaded := true,
    rooms := [exampleRoom] }

/-- The spec's L4 example room: a 6×8 bedroom (48 sqft). -/
def bedroomRoom : Room :=
  { id := "b1", type := "bedroom", label := "", x := 10, y := 30,
    width := 6, height := 8, hasEgressWindow := true, windowArea := 0 }

/-- A project containing only the 6×8 bedroom. -/
def bedroomProject : Project :=
  { jurisdiction := "houston", buildingType := "single-family", stories := 1,
    lotWidth := 50, lotDepth := 100, surveyUploaded := true,
    rooms := [bedroomRoom] }

/-- A project with no rooms. -/
def emptyProject : Project :=
  { jurisdiction := "houston", buildingType := "single-family", stories := 1,
    lotWidth := 50, lotDepth := 100, surveyUploaded := false, rooms := [] }

/-- A 5×5 room used to exercise `applyResize`. -/
def resizeRoom : Room :=
  { id := "r2", type := "living", label := "", x := 0, y := 0,
    width := 5, height := 5, hasEgressWindow := false, windowArea := 0 }

/-- The id of the combined setback record is `"L7-setback"` in both the fail
and the pass branch. -/
theorem l7SetbackRecord_id (b : BBox) (j : Jurisdiction) (lotW lotD : ℚ) :
    (l7SetbackRecord b j lotW lotD).id = "L7-setback" := by
  simp only [l7SetbackRecord]
  split_ifs <;> rfl

/-- Claim C5: over any result list, `worstStatus` is `fail` iff some record
fails, `warn` iff some record warns and none fails, and `pass` iff no record
fails or warns — the total order fail > warn > pass. -/
theorem worstStatus_total_order (results : List ConstraintResult) :
    (worstStatus results = Status.fail ↔ ∃ r ∈ results, r.status = Status.fail) ∧
    (worstStatus results = Status.warn ↔
      ((∃ r ∈ results, r.status = Status.warn) ∧
        ¬ ∃ r ∈ results, r.status = Status.fail)) ∧
    (worstStatus results = Status.pass ↔
      ((¬ ∃ r ∈ results, r.status = Status.fail) ∧
        ¬ ∃ r ∈ results, r.status = Status.warn)) := by
  unfold worstStatus
  split_ifs with h1 h2 <;>
    simp_all [List.any_eq_true, beq_iff_eq]

/-- Claim C9: the engine is deterministic in its carried state — `check`
resets the accumulator (constraints.js line 23), so the returned result
array does not depend on the engine state the call starts from, and a
second call on the state a first call leaves behind returns the identical
array. -/
theorem engineCheck_deterministic (p : Project)
    (st₁ st₂ : List ConstraintResult) :
    (engineCheck st₁ p).1 = (engineCheck st₂ p).1 ∧
    (engineCheck (engineCheck st₁ p).2 p).1 = (engineCheck st₁ p).1 :=
  ⟨rfl, rfl⟩

/-- Claim C10: every wheel event sets the scale to
`min 40 (max 1 (scale · f))` with `f = 1.1` on zoom-in (`deltaY < 0`) and
`f = 0.9` otherwise, so `1 ≤ scale ≤ 40` holds after every wheel event, and
the constructor's initial scale 6 lies in that range. -/
theorem onWheel_scale_clamped (v : ViewState) (px py deltaY : ℚ) :
    (onWheel v px py deltaY).scale
      = min 40 (max 1 (v.scale * (if deltaY < 0 then 11/10 else 9/10))) ∧
    1 ≤ (onWheel v px py deltaY).scale ∧
    (onWheel v px py deltaY).scale ≤ 40 ∧
    initialView.scale = 6 ∧ (1:ℚ) ≤ initialView.scale ∧ initialView.scale ≤ 40 := by
  have hs : (onWheel v px py deltaY).scale
      = max 1 (min 40 (v.scale * (if deltaY < 0 then 11/10 else 9/10))) := rfl
  refine ⟨?_, ?_, ?_, rfl, by norm_num [initialView], by norm_num [initialView]⟩
  · rw [hs, max_min_distrib_left]
    norm_num
  · rw [hs]
    exact le_max_left _ _
  · rw [hs]
    exact max_le (by norm_num) (min_le_left _ _)

/-- Claim C8: a project with no rooms gets exactly one L4 record and it is a
warn (prompting the user to add rooms), never a fail. -/
theorem checkL4_no_rooms (p : Project) (j : Jurisdiction)
    (h : p.rooms = []) :
    (checkL4 p j).length = 1 ∧
    ∀ r ∈ checkL4 p j, r.status = Status.warn := by
  simp [checkL4, l4Issues, h]

/-- Claim C8 witness: the empty project. -/
theorem checkL4_no_rooms_witness :
    (checkL4 emptyProject houston).length = 1 ∧
    ∀ r ∈ checkL4 emptyProject houston, r.status = Status.warn :=
  checkL4_no_rooms emptyProject houston rfl

/-- The offset adjustment of `onWheel` cancels exactly: re-reading a screen
coordinate at the new scale after the offset absorbed the world-point
difference gives the original world coordinate. -/
theorem zoomAnchorAux (s0 s2 ox px : ℚ) (h0 : s0 ≠ 0) (h2 : s2 ≠ 0) :
    (px - (ox + ((px - ox)/s2 - (px - ox)/s0) * s2)) / s2 = (px - ox)/s0 := by
  field_simp
  ring

/-- Claim C2: the zoom-anchor invariant — for any pointer position, offsets
and scale in the allowed range [1, 40], the world coordinate under the
pointer is unchanged by `onWheel` (exactly, in `ℚ`): the offset adjustment
`offset += (worldAfter - worldBefore) * scale` keeps the world point under
the pointer fixed on screen. -/
theorem onWheel_zoom_anchor (v : ViewState) (px py deltaY : ℚ)
    (hlo : 1 ≤ v.scale) (_hhi : v.scale ≤ 40) :
    screenToWorld (onWheel v px py deltaY) px py = screenToWorld v px py := by
  have h0 : v.scale ≠ 0 := ne_of_gt (lt_of_lt_of_le one_pos hlo)
  have h2 : max 1 (min 40 (v.scale * (if deltaY < 0 then (11:ℚ)/10 else 9/10))) ≠ 0 :=
    ne_of_gt (lt_of_lt_of_le one_pos (le_max_left _ _))
  simp only [onWheel, screenToWorld, Prod.mk.injEq]
  constructor
  · exact zoomAnchorAux v.scale _ v.offsetX px h0 h2
  · exact zoomAnchorAux v.scale _ v.offsetY py h0 h2

/-- Claim C2 witness: the anchor property at the initial view, pointer
(100, 80), a zoom-in wheel event. -/
theorem onWheel_zoom_anchor_witness :
    screenToWorld (onWheel initialView 100 80 (-3)) 100 80
      = screenToWorld initialView 100 80 :=
  onWheel_zoom_anchor initialView 100 80 (-3)
    (by norm_num [initialView]) (by norm_num [initialView])

/-- Claim C4: L1 appends exactly one record for every project (the source
returns on the first matched condition, so one issue at most is reported),
and a single-family (1 unit) 1-story project gets a pass from L1 whatever
jurisdiction is selected. -/
theorem checkL1_single_record_single_family_pass :
    (∀ (p : Project) (j : Jurisdiction) (bt : BuildingType),
      (checkL1 p j bt).length = 1) ∧
    (∀ (p : Project) (j : Jurisdiction), p.stories = 1 →
      ∀ r ∈ checkL1 p j singleFamilyType, r.status = Status.pass) := by
  constructor
  · intro p j bt
    simp only [checkL1]
    split_ifs <;> rfl
  · intro p j hs r hr
    simp only [checkL1, singleFamilyType, effStories, hs, TX_STATE] at hr
    norm_num at hr
    simp [hr]

/-- Claim C7: on pointer-up of a draw gesture a room is committed iff both
absolute extents are at least 2 ft (smaller rectangles are discarded), and
the committed rectangle is normalized regardless of drag direction: its
corner is the coordinatewise minimum and width/height are the positive
absolute extents. -/
theorem commitDraw_commit_iff_and_normalized (newId drawRoomType : String)
    (start stop : ℚ × ℚ) (rooms : List Room) :
    (commitDraw newId drawRoomType start stop rooms
      = rooms ++
        (if |stop.1 - start.1| ≥ 2 ∧ |stop.2 - start.2| ≥ 2 then
          [{ id := newId, type := drawRoomType, label := "",
             x := min start.1 stop.1, y := min start.2 stop.2,
             width := |stop.1 - start.1|, height := |stop.2 - start.2|,
             hasEgressWindow := false, windowArea := 0 }]
        else [])) ∧
    (∀ r ∈ commitDraw newId drawRoomType start stop rooms,
      r ∈ rooms ∨
        (r.x = min start.1 stop.1 ∧ r.y = min start.2 stop.2 ∧
         r.width = |stop.1 - start.1| ∧ r.height = |stop.2 - start.2| ∧
         0 < r.width ∧ 0 < r.height)) := by
  constructor
  · simp only [commitDraw]
    split_ifs <;> simp
  · intro r hr
    simp only [commitDraw] at hr
    split_ifs at hr with h
    · rcases List.mem_append.mp hr with h1 | h2
      · exact Or.inl h1
      · right
        rcases List.mem_singleton.mp h2 with rfl
        refine ⟨rfl, rfl, rfl, rfl, ?_, ?_⟩
        · exact lt_of_lt_of_le two_pos h.1
        · exact lt_of_lt_of_le two_pos h.2
    · exact Or.inl hr

/-- The combined setback record's status is fail exactly when some edge is
violated, else pass. -/
theorem l7SetbackRecord_status (b : BBox) (j : Jurisdiction) (lotW lotD : ℚ) :
    (l7SetbackRecord b j lotW lotD).status
      = if l7Violations b j.setbacks lotW lotD = [] then Status.pass
        else Status.fail := by
  simp only [l7SetbackRecord]
  rcases hv : l7Violations b j.setbacks lotW lotD with _ | ⟨a, as⟩ <;> simp [hv]

/-- The combined setback record's witness lists exactly the violated edges
(empty in the pass branch). -/
theorem l7SetbackRecord_edges (b : BBox) (j : Jurisdiction) (lotW lotD : ℚ) :
    (l7SetbackRecord b j lotW lotD).witnessEdges
      = l7Violations b j.setbacks lotW lotD := by
  simp only [l7SetbackRecord]
  rcases hv : l7Violations b j.setbacks lotW lotD with _ | ⟨a, as⟩ <;> simp [hv]

/-- Claim C1 counterexample: a project whose rooms list is non-empty but
holds only an exterior room (a porch) gets no setback record at all from
L7 — the claim's "exactly one setback record for every project with a
non-empty rooms list" fails on it. -/
theorem checkL7_porch_counterexample :
    porchProject.rooms ≠ [] ∧
    ((checkL7 porchProject houston).filter (fun c => c.id == "L7-setback")).length = 0 := by
  decide

/-- Claim C1 (amended): for every project with at least one non-exterior
room, L7 appends exactly one setback record; it is the combined record of
the non-exterior bounding box against the buildable rectangle — status fail
exactly when some edge is violated, with the witness listing each violated
edge, else status pass. -/
theorem checkL7_one_setback_record (p : Project) (j : Jurisdiction)
    (h : ∃ r ∈ p.rooms, isExteriorRoom r = false) :
    ∃ b, bboxOf p.rooms = some b ∧
      (checkL7 p j).filter (fun c => c.id == "L7-setback")
        = [l7SetbackRecord b j (effLotWidth p) (effLotDepth p)] ∧
      (l7SetbackRecord b j (effLotWidth p) (effLotDepth p)).status
        = (if l7Violations b j.setbacks (effLotWidth p) (effLotDepth p) = []
           then Status.pass else Status.fail) ∧
      (l7SetbackRecord b j (effLotWidth p) (effLotDepth p)).witnessEdges
        = l7Violations b j.setbacks (effLotWidth p) (effLotDepth p) := by
  obtain ⟨r, hr, hext⟩ := h
  have hmem : r ∈ p.rooms.filter (fun q => !(isExteriorRoom q)) :=
    List.mem_filter.mpr ⟨hr, by simp [hext]⟩
  obtain ⟨b, hb⟩ : ∃ b, bboxOf p.rooms = some b := by
    unfold bboxOf
    cases hc : p.rooms.filter (fun q => !(isExteriorRoom q)) with
    | nil => rw [hc] at hmem; simp at hmem
    | cons a as => exact ⟨_, rfl⟩
  refine ⟨b, hb, ?_, l7SetbackRecord_status b j _ _, l7SetbackRecord_edges b j _ _⟩
  have hlen : p.rooms.length > 0 := List.length_pos.mpr (List.ne_nil_of_mem hr)
  simp only [checkL7, hb, if_pos hlen]
  rw [List.filter_append]
  split_ifs <;> simp [l7SetbackRecord_id, List.filter]

/-- Claim C1 witness: the spec's example — 50×100 lot, setbacks
{front 25, rear 5, side 5} (Houston), a room whose bounding box spans
x ∈ [0, 10] and violates no other edge — yields exactly one combined fail
record listing the left-edge violation. -/
theorem checkL7_one_setback_record_witness :
    (checkL7 setbackProject houston).filter (fun c => c.id == "L7-setback")
      = [{ id := "L7-setback", name := "Setback Violation", layer := 7,
           status := Status.fail, witnessEdges := [Edge.left] }] := by
  obtain ⟨b, hb, hfil, hstat, hedge⟩ :=
    checkL7_one_setback_record setbackProject houston
      ⟨exampleRoom, by simp [setbackProject], by decide⟩
  have hbb : bboxOf setbackProject.rooms
      = some { minX := 0, maxX := 10, minY := 30, maxY := 70 } := by
    norm_num [bboxOf, setbackProject, exampleRoom, isExteriorRoom, ROOM_TYPES, List.filter]
  rw [hb] at hbb
  have hbeq : b = { minX := 0, maxX := 10, minY := 30, maxY := 70 } := by
    injection hbb
  subst hbeq
  rw [hfil]
  norm_num [l7SetbackRecord, l7Violations, houston, effLotWidth, effLotDepth, setbackProject]

/-- Claim C3 counterexample: the 6×8 bedroom (48 sqft, minArea 70,
minDimension 7) draws two L4 fail records — the area fail and the
narrow-dimension fail — so "exactly one fail result" is false on a project
containing it. -/
theorem checkL4_bedroom_counterexample :
    bedroomRoom ∈ bedroomProject.rooms ∧ bedroomRoom.type = "bedroom" ∧
    bedroomRoom.width = 6 ∧ bedroomRoom.height = 8 ∧
    ¬ (((checkL4 bedroomProject houston).filter
        (fun c => c.status == Status.fail)).length = 1) := by
  refine ⟨by simp [bedroomProject], rfl, rfl, rfl, ?_⟩
  have h2 : ((checkL4 bedroomProject houston).filter
      (fun c => c.status == Status.fail)).length = 2 := by
    norm_num +decide [checkL4, l4Issues, bedroomProject, bedroomRoom, l4RoomIssues,
      l4AreaFailRec, l4DimFailRec, ROOM_TYPES, TX_STATE, List.filter]
  rw [h2]
  norm_num

/-- Claim C3 (amended): a room of category bedroom sized 6×8 yields exactly
two fail results from its per-room L4 checks — the area fail (48 < 70 sqft)
and the narrow-dimension fail (6 < 7 ft) — each with an id referencing the
room's id, and both appear in the L4 output of any project containing the
room. -/
theorem checkL4_bedroom_6x8_two_fails (p : Project) (j : Jurisdiction) (r : Room)
    (hr : r ∈ p.rooms) (ht : r.type = "bedroom") (hw : r.width = 6)
    (hh : r.height = 8) :
    ((l4RoomIssues r).filter (fun c => c.status == Status.fail))
      = [l4AreaFailRec r.id, l4DimFailRec r.id] ∧
    l4AreaFailRec r.id ∈ checkL4 p j ∧
    l4DimFailRec r.id ∈ checkL4 p j := by
  have hfil : ((l4RoomIssues r).filter (fun c => c.status == Status.fail))
      = [l4AreaFailRec r.id, l4DimFailRec r.id] := by
    cases hE : r.hasEgressWindow <;>
      norm_num +decide [l4RoomIssues, ht, hw, hh, hE, ROOM_TYPES, List.filter,
        l4AreaFailRec, l4DimFailRec,
        show (Status.warn == Status.fail) = false from rfl,
        show (Status.fail == Status.fail) = true from rfl]
  have ha : l4AreaFailRec r.id ∈ l4RoomIssues r :=
    List.mem_of_mem_filter (by rw [hfil]; simp)
  have hd : l4DimFailRec r.id ∈ l4RoomIssues r :=
    List.mem_of_mem_filter (by rw [hfil]; simp)
  have hA : l4AreaFailRec r.id ∈ l4Issues p := by
    unfold l4Issues
    exact List.mem_append_left _ (List.mem_append_left _ (List.mem_append_left _
      (List.mem_flatMap.mpr ⟨r, hr, ha⟩)))
  have hD : l4DimFailRec r.id ∈ l4Issues p := by
    unfold l4Issues
    exact List.mem_append_left _ (List.mem_append_left _ (List.mem_append_left _
      (List.mem_flatMap.mpr ⟨r, hr, hd⟩)))
  have hlen : (l4Issues p).length > 0 := List.length_pos.mpr (List.ne_nil_of_mem hA)
  have hout : checkL4 p j = l4Issues p := by
    unfold checkL4
    rw [if_pos hlen]
  exact ⟨hfil, hout ▸ hA, hout ▸ hD⟩

/-- Claim C3 witness: the amended claim at the concrete 6×8 bedroom
project. -/
theorem checkL4_bedroom_6x8_two_fails_witness :
    ((l4RoomIssues bedroomRoom).filter (fun c => c.status == Status.fail))
      = [l4AreaFailRec bedroomRoom.id, l4DimFailRec bedroomRoom.id] ∧
    l4AreaFailRec bedroomRoom.id ∈ checkL4 bedroomProject houston ∧
    l4DimFailRec bedroomRoom.id ∈ checkL4 bedroomProject houston :=
  checkL4_bedroom_6x8_two_fails bedroomProject houston bedroomRoom
    (by simp [bedroomProject]) rfl rfl rfl

/-- Claim C6 counterexample: on a 5-wide room, dragging the west handle to a
snapped position that would leave width 1 is rejected — the room keeps
width 5 — instead of being floored at max(2, requested) = 2, so "the
targeted dimension equals max(2, the requested dimension)" is false. -/
theorem applyResize_w_counterexample :
    2 ≤ resizeRoom.width ∧ 2 ≤ resizeRoom.height ∧
    resizeRoom.x + resizeRoom.width - 4 = 1 ∧
    (applyResize resizeRoom Handle.w (4, 0)).width = 5 ∧
    ¬ ((applyResize resizeRoom Handle.w (4, 0)).width
        = max 2 (resizeRoom.x + resizeRoom.width - 4)) := by
  norm_num [applyResize, resizeRoom, max_def]

/-- Claim C6 (amended): for a room with width and height at least 2, every
resize handle touches only the geometry fields belonging to it (up to four
for corner handles); dimensions grown from the fixed corner (s, e, and the
corner handles' growing sides) are floored at `max 2 requested`, while a
move of the min edge (n, w, and the corner handles' moving sides) is applied
only when the resulting dimension is at least 2 and otherwise leaves those
fields unchanged; in all cases width and height never drop below 2. -/
theorem applyResize_clamps_and_frames (room : Room) (handle : Handle) (sx sy : ℚ)
    (hw : 2 ≤ room.width) (hh : 2 ≤ room.height) :
    2 ≤ (applyResize room handle (sx, sy)).width ∧
    2 ≤ (applyResize room handle (sx, sy)).height ∧
    (applyResize room handle (sx, sy)).id = room.id ∧
    (applyResize room handle (sx, sy)).type = room.type ∧
    (applyResize room handle (sx, sy)).label = room.label ∧
    (applyResize room handle (sx, sy)).hasEgressWindow = room.hasEgressWindow ∧
    (applyResize room handle (sx, sy)).windowArea = room.windowArea ∧
    (handle = Handle.se →
      (applyResize room handle (sx, sy)).x = room.x ∧
      (applyResize room handle (sx, sy)).y = room.y ∧
      (applyResize room handle (sx, sy)).width = max 2 (sx - room.x) ∧
      (applyResize room handle (sx, sy)).height = max 2 (sy - room.y)) ∧
    (handle = Handle.e →
      (applyResize room handle (sx, sy)).x = room.x ∧
      (applyResize room handle (sx, sy)).y = room.y ∧
      (applyResize room handle (sx, sy)).height = room.height ∧
      (applyResize room handle (sx, sy)).width = max 2 (sx - room.x)) ∧
    (handle = Handle.s →
      (applyResize room handle (sx, sy)).x = room.x ∧
      (applyResize room handle (sx, sy)).y = room.y ∧
      (applyResize room handle (sx, sy)).width = room.width ∧
      (applyResize room handle (sx, sy)).height = max 2 (sy - room.y)) ∧
    (handle = Handle.w →
      (applyResize room handle (sx, sy)).y = room.y ∧
      (applyResize room handle (sx, sy)).height = room.height ∧
      (if room.x + room.width - sx ≥ 2 then
        (applyResize room handle (sx, sy)).x = sx ∧
        (applyResize room handle (sx, sy)).width = room.x + room.width - sx
      else
        (applyResize room handle (sx, sy)).x = room.x ∧
        (applyResize room handle (sx, sy)).width = room.width)) ∧
    (handle = Handle.n →
      (applyResize room handle (sx, sy)).x = room.x ∧
      (applyResize room handle (sx, sy)).width = room.width ∧
      (if room.y + room.height - sy ≥ 2 then
        (applyResize room handle (sx, sy)).y = sy ∧
        (applyResize room handle (sx, sy)).height = room.y + room.height - sy
      else
        (applyResize room handle (sx, sy)).y = room.y ∧
        (applyResize room handle (sx, sy)).height = room.height)) ∧
    (handle = Handle.ne →
      (applyResize room handle (sx, sy)).x = room.x ∧
      (applyResize room handle (sx, sy)).width = max 2 (sx - room.x) ∧
      (if room.y + room.height - sy ≥ 2 then
        (applyResize room handle (sx, sy)).y = sy ∧
        (applyResize room handle (sx, sy)).height = room.y + room.height - sy
      else
        (applyResize room handle (sx, sy)).y = room.y ∧
        (applyResize room handle (sx, sy)).height = room.height)) ∧
    (handle = Handle.sw →
      (applyResize room handle (sx, sy)).y = room.y ∧
      (applyResize room handle (sx, sy)).height = max 2 (sy - room.y) ∧
      (if room.x + room.width - sx ≥ 2 then
        (applyResize room handle (sx, sy)).x = sx ∧
        (applyResize room handle (sx, sy)).width = room.x + room.width - sx
      else
        (applyResize room handle (sx, sy)).x = room.x ∧
        (applyResize room handle (sx, sy)).width = room.width)) ∧
    (handle = Handle.nw →
      (if room.x + room.width - sx ≥ 2 then
        (applyResize room handle (sx, sy)).x = sx ∧
        (applyResize room handle (sx, sy)).width = room.x + room.width - sx
      else
        (applyResize room handle (sx, sy)).x = room.x ∧
        (applyResize room handle (sx, sy)).width = room.width) ∧
      (if room.y + room.height - sy ≥ 2 then
        (applyResize room handle (sx, sy)).y = sy ∧
        (applyResize room handle (sx, sy)).height = room.y + room.height - sy
      else
        (applyResize room handle (sx, sy)).y = room.y ∧
        (applyResize room handle (sx, sy)).height = room.height)) := by
  cases handle <;>
    simp only [applyResize] <;>
    split_ifs <;>
    simp_all [le_max_left]

/-- Claim C6 witness: the amended claim at the 5×5 room, south-east handle,
snapped pointer (8, 9). -/
theorem applyResize_clamps_and_frames_witness :
    2 ≤ (applyResize resizeRoom Handle.se (8, 9)).width ∧
    2 ≤ (applyResize resizeRoom Handle.se (8, 9)).height :=
  ⟨(applyResize_clamps_and_frames resizeRoom Handle.se 8 9
      (by norm_num [resizeRoom]) (by norm_num [resizeRoom])).1,
   (applyResize_clamps_and_frames resizeRoom Handle.se 8 9
      (by norm_num [resizeRoom]) (by norm_num [resizeRoom])).2.1⟩
